import Mathlib

/-!
Verification of the spending-aggregation core of the BiggerNumbers backend
(`backend/main.py`).

Modelling choices:
* A transaction's `amount` is a rational number (the upstream JSON carries
  decimal currency values); its `date` is an integer day number, so that
  `date - k days` becomes subtraction and the calendar order is the integer
  order.
* Python's built-in `round(x, 2)` rounds to the nearest multiple of 1/100
  with ties going to the even multiple (banker's rounding); `round2` below
  implements exactly that on rationals.
* Each HTTP handler wraps its body in `try/except Exception` and re-raises
  any failure as `HTTPException(status_code=400, detail=f"...: {e}")`.  The
  upstream call is modelled as an `Except String` value fed to the handler,
  and the handler returns `Except HTTPException` accordingly.
-/

namespace BiggerNumbers

/-- A transaction record as consumed by `get_spending`: a signed decimal
`amount` (positive = money out) and a calendar `date` (integer day number). -/
structure Transaction where
  amount : ℚ
  date : ℤ
deriving DecidableEq, Repr

/-- The response model `SpendingResponse(daily, weekly, monthly)`. -/
structure SpendingResponse where
  daily : ℚ
  weekly : ℚ
  monthly : ℚ
deriving DecidableEq, Repr

/-- `HTTPException(status_code, detail)` raised by the handlers. -/
structure HTTPException where
  status_code : ℕ
  detail : String
deriving DecidableEq, Repr

/-- Round a rational to the nearest integer with ties going to the even
integer: the semantics of Python 3's built-in `round` on exact values. -/
def roundHalfEven (q : ℚ) : ℤ :=
  if q - ⌊q⌋ = 1 / 2 then (if 2 ∣ ⌊q⌋ then ⌊q⌋ else ⌊q⌋ + 1) else round q

/-- Python's `round(x, 2)`: round to the nearest multiple of 1/100,
ties to even. -/
def round2 (x : ℚ) : ℚ := (roundHalfEven (100 * x) : ℚ) / 100

/-- The filter `[t for t in transactions if t['amount'] > 0]`. -/
def spending_transactions (transactions : List Transaction) : List Transaction :=
  transactions.filter (fun t => decide (0 < t.amount))

/-- The generator sum `sum(t['amount'] for t in spending_transactions if
t['date'] >= yesterday)` with `yesterday = today - timedelta(days=1)`. -/
def dailySum (today : ℤ) (transactions : List Transaction) : ℚ :=
  (((spending_transactions transactions).filter
    (fun t => decide (today - 1 ≤ t.date))).map Transaction.amount).sum

/-- The generator sum `sum(t['amount'] for t in spending_transactions if
t['date'] >= week_ago)` with `week_ago = today - timedelta(days=7)`. -/
def weeklySum (today : ℤ) (transactions : List Transaction) : ℚ :=
  (((spending_transactions transactions).filter
    (fun t => decide (today - 7 ≤ t.date))).map Transaction.amount).sum

/-- The sum `sum(t['amount'] for t in spending_transactions)`: no date
condition at all. -/
def monthlySum (transactions : List Transaction) : ℚ :=
  ((spending_transactions transactions).map Transaction.amount).sum

/-- The aggregation core of the `/spending/{access_token}` handler: filter to
positive amounts, sum the three date windows, round each sum once at the
output boundary. -/
def get_spending (today : ℤ) (transactions : List Transaction) : SpendingResponse :=
  { daily := round2 (dailySum today transactions)
    weekly := round2 (weeklySum today transactions)
    monthly := round2 (monthlySum transactions) }

/-- The `/create_link_token` handler: on upstream success return the link
token, on any exception raise `HTTPException(400, f"Error creating link
token: {e}")`. -/
def create_link_token (upstream : Except String String) : Except HTTPException String :=
  match upstream with
  | Except.ok link_token => Except.ok link_token
  | Except.error e => Except.error ⟨400, "Error creating link token: " ++ e⟩

/-- The `/exchange_public_token` handler: on upstream success return the
access token, on any exception raise `HTTPException(400, f"Error exchanging
token: {e}")`. -/
def exchange_public_token (upstream : Except String String) : Except HTTPException String :=
  match upstream with
  | Except.ok access_token => Except.ok access_token
  | Except.error e => Except.error ⟨400, "Error exchanging token: " ++ e⟩

/-- The `/spending/{access_token}` handler around the aggregation core: on
upstream success aggregate, on any exception raise `HTTPException(400,
f"Error fetching spending: {e}")`. -/
def get_spending_route (today : ℤ) (upstream : Except String (List Transaction)) :
    Except HTTPException SpendingResponse :=
  match upstream with
  | Except.ok transactions => Except.ok (get_spending today transactions)
  | Except.error e => Except.error ⟨400, "Error fetching spending: " ++ e⟩

/- Helper lemmas about the rounding function and the sums. -/

lemma le_roundHalfEven (q : ℚ) : q - 1 / 2 ≤ (roundHalfEven q : ℚ) := by
  unfold roundHalfEven
  split
  · rename_i h
    have hq : (⌊q⌋ : ℚ) = q - 1 / 2 := by linarith
    split
    · rw [hq]
    · push_cast
      rw [hq]
      linarith
  · have := sub_half_lt_round q
    linarith

lemma roundHalfEven_le (q : ℚ) : (roundHalfEven q : ℚ) ≤ q + 1 / 2 := by
  unfold roundHalfEven
  split
  · rename_i h
    have hq : (⌊q⌋ : ℚ) = q - 1 / 2 := by linarith
    split
    · rw [hq]
      linarith
    · push_cast
      rw [hq]
      linarith
  · exact round_le_add_half q

lemma roundHalfEven_mono : Monotone roundHalfEven := by
  intro x y hxy
  rcases eq_or_lt_of_le hxy with h | h
  · subst h
    exact le_refl _
  · by_contra hc
    push_neg at hc
    have h1 : roundHalfEven y + 1 ≤ roundHalfEven x := hc
    have h2 : (roundHalfEven y : ℚ) + 1 ≤ (roundHalfEven x : ℚ) := by exact_mod_cast h1
    have h3 := le_roundHalfEven y
    have h4 := roundHalfEven_le x
    linarith

lemma round2_mono {x y : ℚ} (h : x ≤ y) : round2 x ≤ round2 y := by
  unfold round2
  have h1 : roundHalfEven (100 * x) ≤ roundHalfEven (100 * y) :=
    roundHalfEven_mono (by linarith)
  have h2 : (roundHalfEven (100 * x) : ℚ) ≤ (roundHalfEven (100 * y) : ℚ) := by
    exact_mod_cast h1
  linarith

lemma sum_filter_le_sum_filter (l : List Transaction) (p q : Transaction → Bool)
    (hl : ∀ t ∈ l, 0 ≤ t.amount) (hpq : ∀ t, p t = true → q t = true) :
    ((l.filter p).map Transaction.amount).sum ≤
      ((l.filter q).map Transaction.amount).sum := by
  induction l with
  | nil => simp
  | cons a l ih =>
    have ha : 0 ≤ a.amount := hl a (List.mem_cons_self a l)
    have hl' : ∀ t ∈ l, 0 ≤ t.amount := fun t ht => hl t (List.mem_cons_of_mem a ht)
    have ih' := ih hl'
    by_cases hp : p a = true
    · have hq : q a = true := hpq a hp
      simp [List.filter_cons, hp, hq]
      linarith
    · by_cases hq : q a = true
      · simp [List.filter_cons, hp, hq]
        linarith
      · simp [List.filter_cons, hp, hq]
        exact ih'

lemma mem_spending_nonneg (ts : List Transaction) :
    ∀ t ∈ spending_transactions ts, 0 ≤ t.amount := by
  intro t ht
  unfold spending_transactions at ht
  rw [List.mem_filter] at ht
  have := of_decide_eq_true ht.2
  linarith

lemma dailySum_le_weeklySum (today : ℤ) (ts : List Transaction) :
    dailySum today ts ≤ weeklySum today ts := by
  unfold dailySum weeklySum
  apply sum_filter_le_sum_filter _ _ _ (mem_spending_nonneg ts)
  intro t ht
  have h := of_decide_eq_true ht
  exact decide_eq_true (by omega)

lemma weeklySum_le_monthlySum (today : ℤ) (ts : List Transaction) :
    weeklySum today ts ≤ monthlySum ts := by
  unfold weeklySum monthlySum
  have h := sum_filter_le_sum_filter (spending_transactions ts)
    (fun t => decide (today - 7 ≤ t.date)) (fun _ => true)
    (mem_spending_nonneg ts) (fun _ _ => rfl)
  simpa using h

lemma dailySum_cons (today : ℤ) (t : Transaction) (ts : List Transaction) :
    dailySum today (t :: ts) =
      (if 0 < t.amount ∧ today - 1 ≤ t.date then t.amount else 0) + dailySum today ts := by
  by_cases h1 : 0 < t.amount <;> by_cases h2 : today ≤ t.date + 1 <;>
    simp [dailySum, spending_transactions, List.filter_cons, h1, h2]

lemma weeklySum_cons (today : ℤ) (t : Transaction) (ts : List Transaction) :
    weeklySum today (t :: ts) =
      (if 0 < t.amount ∧ today - 7 ≤ t.date then t.amount else 0) + weeklySum today ts := by
  by_cases h1 : 0 < t.amount <;> by_cases h2 : today ≤ t.date + 7 <;>
    simp [weeklySum, spending_transactions, List.filter_cons, h1, h2]

lemma monthlySum_cons (t : Transaction) (ts : List Transaction) :
    monthlySum (t :: ts) = (if 0 < t.amount then t.amount else 0) + monthlySum ts := by
  by_cases h1 : 0 < t.amount <;>
    simp [monthlySum, spending_transactions, List.filter_cons, h1]

lemma spending_transactions_filter (ts : List Transaction) :
    spending_transactions (ts.filter (fun t => decide (0 < t.amount))) =
      spending_transactions ts := by
  simp [spending_transactions, List.filter_filter]

/-- C1: for every transaction list and reference date, the three outputs of
`get_spending` satisfy `monthly ≥ weekly ≥ daily`: the daily window is a
subset of the weekly window, which is a subset of the set summed for monthly,
only positive amounts are summed, and rounding to 2 decimals is monotone. -/
theorem monthly_ge_weekly_ge_daily (today : ℤ) (ts : List Transaction) :
    (get_spending today ts).daily ≤ (get_spending today ts).weekly ∧
    (get_spending today ts).weekly ≤ (get_spending today ts).monthly := by
  refine ⟨?_, ?_⟩
  · exact round2_mono (dailySum_le_weeklySum today ts)
  · exact round2_mono (weeklySum_le_monthlySum today ts)

/-- C3: the result of `get_spending` is unchanged when every transaction with
`amount ≤ 0` is removed from the input list: non-positive amounts contribute
to none of the three totals. -/
theorem nonpositive_transactions_irrelevant (today : ℤ) (ts : List Transaction) :
    get_spending today (ts.filter (fun t => decide (¬ t.amount ≤ 0))) =
      get_spending today ts := by
  have h : (ts.filter (fun t => decide (¬ t.amount ≤ 0))) =
      ts.filter (fun t => decide (0 < t.amount)) := by
    simp [not_le]
  rw [h]
  have h2 := spending_transactions_filter ts
  simp only [get_spending, dailySum, weeklySum, monthlySum, h2]

/-- C4: for every reference date (and ambient transaction list), a
positive-amount transaction dated exactly 7 days before the reference date
adds its amount to the weekly sum, while one dated exactly 8 days before
leaves the weekly sum unchanged: the `week_ago` boundary is inclusive. -/
theorem weekly_boundary_inclusive (today : ℤ) (ts : List Transaction) (a : ℚ)
    (ha : 0 < a) :
    weeklySum today ({ amount := a, date := today - 7 } :: ts) = a + weeklySum today ts ∧
    weeklySum today ({ amount := a, date := today - 8 } :: ts) = weeklySum today ts := by
  refine ⟨?_, ?_⟩
  · rw [weeklySum_cons, if_pos ⟨ha, show today - 7 ≤ today - 7 by omega⟩]
  · rw [weeklySum_cons,
      if_neg (fun h => absurd h.2 (show ¬ today - 7 ≤ today - 8 by omega)), zero_add]

/-- C4 witness at `today = 10`, `a = 1`, empty ambient list. -/
theorem weekly_boundary_inclusive_witness :
    weeklySum 10 [{ amount := 1, date := 10 - 7 }] = 1 + weeklySum 10 [] ∧
    weeklySum 10 [{ amount := 1, date := 10 - 8 }] = weeklySum 10 [] :=
  weekly_boundary_inclusive 10 [] 1 one_pos

/-- C5: for every reference date (and ambient transaction list), a
positive-amount transaction dated exactly 1 day before the reference date
adds its amount to the daily sum; one dated exactly 2 days before leaves the
daily sum unchanged while still adding its amount to the weekly and monthly
sums. -/
theorem daily_boundary_inclusive (today : ℤ) (ts : List Transaction) (a : ℚ)
    (ha : 0 < a) :
    dailySum today ({ amount := a, date := today - 1 } :: ts) = a + dailySum today ts ∧
    dailySum today ({ amount := a, date := today - 2 } :: ts) = dailySum today ts ∧
    weeklySum today ({ amount := a, date := today - 2 } :: ts) = a + weeklySum today ts ∧
    monthlySum ({ amount := a, date := today - 2 } :: ts) = a + monthlySum ts := by
  refine ⟨?_, ?_, ?_, ?_⟩
  · rw [dailySum_cons, if_pos ⟨ha, show today - 1 ≤ today - 1 by omega⟩]
  · rw [dailySum_cons,
      if_neg (fun h => absurd h.2 (show ¬ today - 1 ≤ today - 2 by omega)), zero_add]
  · rw [weeklySum_cons, if_pos ⟨ha, show today - 7 ≤ today - 2 by omega⟩]
  · rw [monthlySum_cons, if_pos ha]

/-- C5 witness at `today = 10`, `a = 1`, empty ambient list. -/
theorem daily_boundary_inclusive_witness :
    dailySum 10 [{ amount := 1, date := 10 - 1 }] = 1 + dailySum 10 [] ∧
    dailySum 10 [{ amount := 1, date := 10 - 2 }] = dailySum 10 [] ∧
    weeklySum 10 [{ amount := 1, date := 10 - 2 }] = 1 + weeklySum 10 [] ∧
    monthlySum [{ amount := 1, date := 10 - 2 }] = 1 + monthlySum [] :=
  daily_boundary_inclusive 10 [] 1 one_pos

/-- C6: for the empty transaction list and every reference date,
`get_spending` returns `daily = weekly = monthly = 0`. -/
theorem empty_transactions_zero (today : ℤ) :
    get_spending today [] = { daily := 0, weekly := 0, monthly := 0 } := by
  norm_num [get_spending, dailySum, weeklySum, monthlySum, spending_transactions,
    round2, roundHalfEven]

/-- C7: each output of `get_spending` is the once-rounded value of the
corresponding full-precision sum (rounding is applied only at the output
boundary, never to intermediate values), and each output is an exact multiple
of 1/100, i.e. has at most 2 decimal places. -/
theorem rounding_at_output_boundary (today : ℤ) (ts : List Transaction) :
    (get_spending today ts).daily = round2 (dailySum today ts) ∧
    (get_spending today ts).weekly = round2 (weeklySum today ts) ∧
    (get_spending today ts).monthly = round2 (monthlySum ts) ∧
    (∃ d : ℤ, (get_spending today ts).daily = (d : ℚ) / 100) ∧
    (∃ w : ℤ, (get_spending today ts).weekly = (w : ℚ) / 100) ∧
    (∃ m : ℤ, (get_spending today ts).monthly = (m : ℚ) / 100) :=
  ⟨rfl, rfl, rfl, ⟨roundHalfEven (100 * dailySum today ts), rfl⟩,
    ⟨roundHalfEven (100 * weeklySum today ts), rfl⟩,
    ⟨roundHalfEven (100 * monthlySum ts), rfl⟩⟩

/-- C8: the monthly sum applies no date filter at all: a positive-amount
transaction with an arbitrary date — however far before (or after) the
reference date — always adds its amount to the monthly sum, and the monthly
output is the rounded sum of all positive amounts in the list. -/
theorem monthly_has_no_date_bound (today : ℤ) (ts : List Transaction) (a : ℚ) (d : ℤ)
    (ha : 0 < a) :
    monthlySum ({ amount := a, date := d } :: ts) = a + monthlySum ts ∧
    (get_spending today ({ amount := a, date := d } :: ts)).monthly =
      round2 (a + monthlySum ts) := by
  have h : monthlySum ({ amount := a, date := d } :: ts) = a + monthlySum ts := by
    rw [monthlySum_cons, if_pos ha]
  exact ⟨h, by rw [show (get_spending today ({ amount := a, date := d } :: ts)).monthly =
    round2 (monthlySum ({ amount := a, date := d } :: ts)) from rfl, h]⟩

/-- C8 witness: a transaction dated day 0, far more than 30 days before the
reference date 1000, still counts in the monthly total. -/
theorem monthly_has_no_date_bound_witness :
    monthlySum [{ amount := 1, date := 0 }] = 1 + monthlySum [] ∧
    (get_spending 1000 [{ amount := 1, date := 0 }]).monthly =
      round2 (1 + monthlySum []) :=
  monthly_has_no_date_bound 1000 [] 1 0 one_pos

/-- C9: every failure while handling any of the three business endpoints is
surfaced as a single uniform HTTP 400 error whose detail message embeds the
failure cause; no other status code is ever produced. -/
theorem handlers_uniform_error_400 (u1 u2 : Except String String)
    (u3 : Except String (List Transaction)) (today : ℤ) :
    (∀ err, create_link_token u1 = Except.error err →
      err.status_code = 400 ∧
        ∃ cause, u1 = Except.error cause ∧
          err.detail = "Error creating link token: " ++ cause) ∧
    (∀ err, exchange_public_token u2 = Except.error err →
      err.status_code = 400 ∧
        ∃ cause, u2 = Except.error cause ∧
          err.detail = "Error exchanging token: " ++ cause) ∧
    (∀ err, get_spending_route today u3 = Except.error err →
      err.status_code = 400 ∧
        ∃ cause, u3 = Except.error cause ∧
          err.detail = "Error fetching spending: " ++ cause) := by
  refine ⟨?_, ?_, ?_⟩
  · intro err herr
    cases u1 with
    | ok v => simp [create_link_token] at herr
    | error e =>
        simp [create_link_token] at herr
        exact ⟨by rw [← herr], e, rfl, by rw [← herr]⟩
  · intro err herr
    cases u2 with
    | ok v => simp [exchange_public_token] at herr
    | error e =>
        simp [exchange_public_token] at herr
        exact ⟨by rw [← herr], e, rfl, by rw [← herr]⟩
  · intro err herr
    cases u3 with
    | ok v => simp [get_spending_route] at herr
    | error e =>
        simp [get_spending_route] at herr
        exact ⟨by rw [← herr], e, rfl, by rw [← herr]⟩

/-- C9 witness: a concrete upstream failure on the link-token endpoint is
mapped to status 400 with the cause embedded in the detail message. -/
theorem handlers_uniform_error_400_witness :
    ({ status_code := 400, detail := "Error creating link token: " ++ "boom" } :
        HTTPException).status_code = 400 ∧
    ∃ cause, (Except.error "boom" : Except String String) = Except.error cause ∧
      ({ status_code := 400, detail := "Error creating link token: " ++ "boom" } :
        HTTPException).detail = "Error creating link token: " ++ cause :=
  (handlers_uniform_error_400 (Except.error "boom") (Except.error "x")
    (Except.error "y") 0).1 _ rfl

/-- C10: a positive-amount transaction dated strictly after the reference
date adds its amount to all three sums: none of the three window filters
imposes an upper date bound. -/
theorem future_dated_included_everywhere (today : ℤ) (ts : List Transaction) (a : ℚ)
    (d : ℤ) (ha : 0 < a) (hd : today < d) :
    dailySum today ({ amount := a, date := d } :: ts) = a + dailySum today ts ∧
    weeklySum today ({ amount := a, date := d } :: ts) = a + weeklySum today ts ∧
    monthlySum ({ amount := a, date := d } :: ts) = a + monthlySum ts := by
  refine ⟨?_, ?_, ?_⟩
  · rw [dailySum_cons, if_pos ⟨ha, show today - 1 ≤ d by omega⟩]
  · rw [weeklySum_cons, if_pos ⟨ha, show today - 7 ≤ d by omega⟩]
  · rw [monthlySum_cons, if_pos ha]

/-- C10 witness at `today = 0`, a transaction dated day 5 (in the future). -/
theorem future_dated_included_everywhere_witness :
    dailySum 0 [{ amount := 1, date := 5 }] = 1 + dailySum 0 [] ∧
    weeklySum 0 [{ amount := 1, date := 5 }] = 1 + weeklySum 0 [] ∧
    monthlySum [{ amount := 1, date := 5 }] = 1 + monthlySum [] :=
  future_dated_included_everywhere 0 [] 1 5 one_pos (by decide)

end BiggerNumbers
